import Mathlib

/-!
Shallow embedding of the `anima` engine's Vulkan layer (Rust sources under
`src/engine/src/`), covering the data model and the operations needed for the
frame-synchronization, device-selection, pipeline and shutdown claims.

Vulkan handles are modelled as abstract natural numbers; the nullable
`vk::Fence` entries of the images-in-flight map are modelled as `Option Nat`
(`none` = `vk::Fence::null()`).  Each driver call made by the engine is
recorded as a `VkCall` event, so that ordering properties of a frame are
statements about the event trace.  Fallible driver calls are resolved by an
explicit oracle supplying each call's result, mirroring the `?`-propagation
of the Rust code.
-/

namespace Anima

/-- Embeds `constants::MAX_FRAMES_IN_FLIGHT` (constants.rs line 11). -/
def MAX_FRAMES_IN_FLIGHT : Nat := 2

/-- Embeds `constants::VALIDATION_LAYER` (constants.rs lines 5-6). -/
def VALIDATION_LAYER : String := "VK_LAYER_KHRONOS_validation"

/-- Embeds `constants::DEVICE_EXTENSIONS` (constants.rs line 8). -/
def DEVICE_EXTENSIONS : List String := ["VK_KHR_swapchain"]

/-- Embeds `u64::MAX`, the timeout passed to both fence waits and the acquire call. -/
def u64MAX : Nat := 2 ^ 64 - 1

/-- Errors returned by driver calls; the engine wraps them in `anyhow`
messages, so an error is either an engine-side message or a driver status
code. -/
inductive VkError where
  | message (s : String)
  | code (n : Nat)
deriving DecidableEq, Repr

/-- Pipeline stage flags used by the engine (only one appears). -/
inductive PipelineStage where
  | colorAttachmentOutput
deriving DecidableEq, Repr

/-- Embeds `vk::SubmitInfo` as built in `VulkanRenderer::render` (mod.rs 122-130). -/
structure SubmitInfo where
  waitSemaphores : List Nat
  waitDstStageMask : List PipelineStage
  commandBuffers : List Nat
  signalSemaphores : List Nat
deriving DecidableEq, Repr

/-- The driver calls issued by the engine, one constructor per Vulkan entry
point used in mod.rs, lib.rs, pipeline.rs, device.rs and instance.rs. -/
inductive VkCall where
  | waitForFences (fences : List Nat) (waitAll : Bool) (timeout : Nat)
  | acquireNextImageKHR (swapchain : Nat) (timeout : Nat) (semaphore : Nat)
  | resetFences (fences : List Nat)
  | queueSubmit (queue : Nat) (submits : List SubmitInfo) (fence : Nat)
  | queuePresentKHR (queue : Nat) (waitSemaphores : List Nat)
      (swapchains : List Nat) (imageIndices : List Nat)
  | queueWaitIdle (queue : Nat)
  | deviceWaitIdle
  | destroyFence (f : Nat)
  | destroySemaphore (s : Nat)
  | destroyCommandPool (p : Nat)
  | destroyFramebuffer (f : Nat)
  | destroyPipeline (p : Nat)
  | destroyPipelineLayout (l : Nat)
  | destroyRenderPass (r : Nat)
  | destroyImageView (v : Nat)
  | destroySwapchainKHR (s : Nat)
  | destroyDevice
  | destroySurfaceKHR (s : Nat)
  | destroyDebugUtilsMessenger (m : Nat)
  | destroyInstance
deriving DecidableEq, Repr

/-- Host-blocking classification of each driver call, per the Vulkan
semantics of the entry points the engine uses: fence waits and queue/device
idle waits block the calling thread until the condition holds, and
`vkAcquireNextImageKHR` blocks up to its timeout (the engine always passes
`u64::MAX`, i.e. an effectively infinite timeout).  Submission, presentation,
reset and destruction calls return without waiting for the GPU. -/
def VkCall.blocking : VkCall → Bool
  | .waitForFences _ _ _ => true
  | .acquireNextImageKHR _ timeout _ => timeout != 0
  | .queueWaitIdle _ => true
  | .deviceWaitIdle => true
  | _ => false

def VkCall.isWaitForFences : VkCall → Bool
  | .waitForFences _ _ _ => true
  | _ => false

def VkCall.isQueueSubmit : VkCall → Bool
  | .queueSubmit _ _ _ => true
  | _ => false

def VkCall.isResetFences : VkCall → Bool
  | .resetFences _ => true
  | _ => false

/-- Pipeline bind points (command_buffer.rs line 72 uses `GRAPHICS`). -/
inductive PipelineBindPoint where
  | graphics
  | compute
deriving DecidableEq, Repr

/-- Commands recorded into a command buffer
(`VulkanCommandBuffer::create_command_buffers`, command_buffer.rs 40-80).
`bindVertexBuffers` is included so that its absence from every recording is a
meaningful statement (the engine never binds a vertex buffer). -/
inductive Cmd where
  | beginCommandBuffer
  | beginRenderPass (renderPass framebuffer : Nat) (clearR clearG clearB clearA : ℚ)
  | bindPipeline (bindPoint : PipelineBindPoint) (pipeline : Nat)
  | bindVertexBuffers (buffers : List Nat)
  | draw (vertexCount instanceCount firstVertex firstInstance : Nat)
  | endRenderPass
  | endCommandBuffer
deriving DecidableEq, Repr

def Cmd.isBindVertexBuffers : Cmd → Bool
  | .bindVertexBuffers _ => true
  | _ => false

/-- Embeds `VulkanContext` (context.rs) together with the per-frame synchronization
collections that `VulkanRenderer` stores in it (mod.rs lines 72-88 and
93-158).  `commandRecordings` is the recorded content of each command buffer,
kept alongside the handles so that recording claims are statements about the
context. -/
structure VulkanContext where
  messenger : Nat
  surface : Nat
  physicalDevice : Nat
  graphicsQueue : Nat
  presentQueue : Nat
  swapchain : Nat
  swapchainImages : List Nat
  swapchainImageViews : List Nat
  pipelineLayout : Nat
  renderPass : Nat
  pipeline : Nat
  framebuffers : List Nat
  commandPool : Nat
  commandBuffers : List Nat
  commandRecordings : List (List Cmd)
  imageAvailableSemaphore : Nat
  renderFinishedSemaphore : Nat
  imageAvailableSemaphores : List Nat
  renderFinishedSemaphores : List Nat
  inFlightFences : List Nat
  imagesInFlight : List (Option Nat)
deriving DecidableEq, Repr

/-- Embeds `VulkanContext::default()` — all handles null, all collections empty. -/
def VulkanContext.empty : VulkanContext where
  messenger := 0
  surface := 0
  physicalDevice := 0
  graphicsQueue := 0
  presentQueue := 0
  swapchain := 0
  swapchainImages := []
  swapchainImageViews := []
  pipelineLayout := 0
  renderPass := 0
  pipeline := 0
  framebuffers := []
  commandPool := 0
  commandBuffers := []
  commandRecordings := []
  imageAvailableSemaphore := 0
  renderFinishedSemaphore := 0
  imageAvailableSemaphores := []
  renderFinishedSemaphores := []
  inFlightFences := []
  imagesInFlight := []

/-- Embeds `VulkanRenderer` (mod.rs lines 27-34): the context plus the frame-slot
index. -/
structure VulkanRenderer where
  context : VulkanContext
  frame : Nat
deriving DecidableEq, Repr

/-- Results of the fallible driver calls made by one execution of
`VulkanRenderer::render`, in program order.  `acquireResult` carries the
acquired image index on success. -/
structure RenderOracle where
  wait1Result : Except VkError Unit
  acquireResult : Except VkError Nat
  wait2Result : Except VkError Unit
  resetResult : Except VkError Unit
  submitResult : Except VkError Unit
  presentResult : Except VkError Unit
  waitIdleResult : Except VkError Unit
deriving Repr

/-- Outcome of one `render` call: the returned `Result`, the renderer state
afterwards, and the trace of driver calls issued. -/
structure RenderOutcome where
  result : Except VkError Unit
  renderer : VulkanRenderer
  trace : List VkCall
deriving Repr

/-- Continuation of `VulkanRenderer::render` after the cross-image hazard
check (mod.rs lines 119-158): claim the image for the current frame-slot's
fence, build the submit info, reset the fence, submit, present, wait for the
present queue to go idle, and advance the frame-slot index. -/
def renderAfterHazard (s : VulkanRenderer) (o : RenderOracle) (imageIndex : Nat)
    (t : List VkCall) : RenderOutcome :=
  let fence := s.context.inFlightFences.getD s.frame 0
  let s2 : VulkanRenderer :=
    { s with context :=
        { s.context with
            imagesInFlight := s.context.imagesInFlight.set imageIndex (some fence) } }
  let submitInfo : SubmitInfo :=
    { waitSemaphores := [s.context.imageAvailableSemaphores.getD s.frame 0]
      waitDstStageMask := [PipelineStage.colorAttachmentOutput]
      commandBuffers := [s.context.commandBuffers.getD imageIndex 0]
      signalSemaphores := [s.context.renderFinishedSemaphores.getD s.frame 0] }
  let t4 := t ++ [VkCall.resetFences [fence]]
  match o.resetResult with
  | .error e => ⟨.error e, s2, t4⟩
  | .ok _ =>
    let t5 := t4 ++ [VkCall.queueSubmit s.context.graphicsQueue [submitInfo] fence]
    match o.submitResult with
    | .error e => ⟨.error e, s2, t5⟩
    | .ok _ =>
      let t6 := t5 ++ [VkCall.queuePresentKHR s.context.presentQueue
        [s.context.renderFinishedSemaphores.getD s.frame 0]
        [s.context.swapchain] [imageIndex]]
      match o.presentResult with
      | .error e => ⟨.error e, s2, t6⟩
      | .ok _ =>
        let t7 := t6 ++ [VkCall.queueWaitIdle s.context.presentQueue]
        match o.waitIdleResult with
        | .error e => ⟨.error e, s2, t7⟩
        | .ok _ =>
          ⟨.ok (), { s2 with frame := (s2.frame + 1) % MAX_FRAMES_IN_FLIGHT }, t7⟩

/-- Embeds `VulkanRenderer::render` (mod.rs lines 93-159): wait on the current
frame-slot's fence, acquire the next swapchain image, wait on the image's
mapped fence when that map entry is non-null, then continue with claim,
submit, present and frame advance. -/
def VulkanRenderer.render (s : VulkanRenderer) (o : RenderOracle) : RenderOutcome :=
  let fence := s.context.inFlightFences.getD s.frame 0
  let t1 : List VkCall := [VkCall.waitForFences [fence] true u64MAX]
  match o.wait1Result with
  | .error e => ⟨.error e, s, t1⟩
  | .ok _ =>
    let t2 := t1 ++ [VkCall.acquireNextImageKHR s.context.swapchain u64MAX
      (s.context.imageAvailableSemaphores.getD s.frame 0)]
    match o.acquireResult with
    | .error e => ⟨.error e, s, t2⟩
    | .ok imageIndex =>
      match s.context.imagesInFlight.getD imageIndex none with
      | some f =>
        let t3 := t2 ++ [VkCall.waitForFences [f] true u64MAX]
        match o.wait2Result with
        | .error e => ⟨.error e, s, t3⟩
        | .ok _ => renderAfterHazard s o imageIndex t3
      | none => renderAfterHazard s o imageIndex t2

/-! ### Device selection (device.rs) -/

/-- One queue family of an adapter, as seen through the queries in
`QueueFamilyIndices::get` (device.rs 171-208): whether its queue flags
contain `GRAPHICS`, and whether
`get_physical_device_surface_support_khr` reports presentation support for
the engine's surface. -/
structure QueueFamily where
  graphics : Bool
  presentSupport : Bool
deriving DecidableEq, Repr

/-- A physical adapter as seen through the queries `pick_physical_device`
makes: its queue families, its device extension names, and the surface
formats and present modes reported for the engine's surface. -/
structure PhysicalDevice where
  queueFamilies : List QueueFamily
  extensions : List String
  formats : List Nat
  presentModes : List Nat
deriving DecidableEq, Repr

/-- Embeds `QueueFamilyIndices` (device.rs 164-168). -/
structure QueueFamilyIndices where
  graphics : Nat
  present : Nat
deriving DecidableEq, Repr

/-- Embeds `QueueFamilyIndices::get` (device.rs 171-208): the first family whose
flags contain `GRAPHICS` and the first family with surface support; an error
when either is missing. -/
def QueueFamilyIndices.get (d : PhysicalDevice) : Except String QueueFamilyIndices :=
  match d.queueFamilies.findIdx? (fun p => p.graphics),
        d.queueFamilies.findIdx? (fun p => p.presentSupport) with
  | some g, some p => .ok ⟨g, p⟩
  | _, _ => .error "Missing required queue families."

/-- Embeds `VulkanDevice::check_physical_device_extensions` (device.rs 66-87). -/
def checkPhysicalDeviceExtensions (d : PhysicalDevice) : Except String Unit :=
  if DEVICE_EXTENSIONS.all (fun e => d.extensions.contains e) then
    .ok ()
  else
    .error "Missing required device extensions."

/-- Swapchain support of an adapter (formats and present modes). -/
structure SwapchainSupport where
  formats : List Nat
  presentModes : List Nat
deriving DecidableEq, Repr

/-- Modelled from the spec: `VulkanSwapchain::get` (swapchain.rs is not in
src/) queries the adapter's supported surface formats and present modes for
the engine's surface, per §4.4 of the spec ("Queries surface capabilities,
formats, present modes for the selected adapter"). -/
def VulkanSwapchain.get (d : PhysicalDevice) : SwapchainSupport :=
  ⟨d.formats, d.presentModes⟩

/-- Embeds `VulkanDevice::check_physical_device` (device.rs 50-64). -/
def checkPhysicalDevice (d : PhysicalDevice) : Except String Unit :=
  match QueueFamilyIndices.get d with
  | .error e => .error e
  | .ok _ =>
    match checkPhysicalDeviceExtensions d with
    | .error e => .error e
    | .ok _ =>
      let support := VulkanSwapchain.get d
      if support.formats.isEmpty || support.presentModes.isEmpty then
        .error "Insufficient swapchain support."
      else
        .ok ()

/-- Embeds `VulkanDevice::pick_physical_device` (device.rs 25-48): scan the
enumerated adapters in order, log-and-skip each adapter whose check fails,
select the first adapter whose check passes, and fail only when the list is
exhausted. -/
def pickPhysicalDevice : List PhysicalDevice → Except String PhysicalDevice
  | [] => .error "Failed to find suitable physical device."
  | d :: rest =>
    match checkPhysicalDevice d with
    | .error _ => pickPhysicalDevice rest
    | .ok _ => .ok d

/-! ### Pipeline color blending (pipeline.rs 77-92) -/

inductive BlendFactor where
  | zero
  | one
  | srcAlpha
  | oneMinusSrcAlpha
deriving DecidableEq, Repr

inductive BlendOp where
  | add
deriving DecidableEq, Repr

/-- Color component write mask. -/
structure ColorComponentFlags where
  r : Bool
  g : Bool
  b : Bool
  a : Bool
deriving DecidableEq, Repr

/-- Embeds `vk::PipelineColorBlendAttachmentState` fields set by
`VulkanPipeline::create` (pipeline.rs 77-85). -/
structure PipelineColorBlendAttachmentState where
  colorWriteMask : ColorComponentFlags
  blendEnable : Bool
  srcColorBlendFactor : BlendFactor
  dstColorBlendFactor : BlendFactor
  colorBlendOp : BlendOp
  srcAlphaBlendFactor : BlendFactor
  dstAlphaBlendFactor : BlendFactor
  alphaBlendOp : BlendOp
deriving DecidableEq, Repr

/-- The color-blend attachment state built at pipeline.rs lines 77-85. -/
def colorBlendAttachment : PipelineColorBlendAttachmentState where
  colorWriteMask := ⟨true, true, true, true⟩
  blendEnable := true
  srcColorBlendFactor := .srcAlpha
  dstColorBlendFactor := .oneMinusSrcAlpha
  colorBlendOp := .add
  srcAlphaBlendFactor := .one
  dstAlphaBlendFactor := .zero
  alphaBlendOp := .add

/-- An RGBA color with rational components (the attachment is a normalized
color format; blend arithmetic is exact on the represented values). -/
structure Color where
  r : ℚ
  g : ℚ
  b : ℚ
  a : ℚ
deriving DecidableEq, Repr

/-- Value of a blend factor, per the Vulkan blend equation, for the source
and destination colors at hand. -/
def BlendFactor.eval (f : BlendFactor) (src : Color) : ℚ :=
  match f with
  | .zero => 0
  | .one => 1
  | .srcAlpha => src.a
  | .oneMinusSrcAlpha => 1 - src.a

/-- The alpha written to the framebuffer by the configured blend
(`alpha_blend_op` is `ADD`): `srcFactor * src.a + dstFactor * dst.a` when
blending is enabled, `src.a` otherwise. -/
def blendedAlpha (att : PipelineColorBlendAttachmentState) (src dst : Color) : ℚ :=
  if att.blendEnable then
    att.srcAlphaBlendFactor.eval src * src.a + att.dstAlphaBlendFactor.eval src * dst.a
  else
    src.a

/-- One color channel written by the configured blend (`color_blend_op` is
`ADD`). -/
def blendedChannel (att : PipelineColorBlendAttachmentState) (src : Color)
    (srcC dstC : ℚ) : ℚ :=
  if att.blendEnable then
    att.srcColorBlendFactor.eval src * srcC + att.dstColorBlendFactor.eval src * dstC
  else
    srcC

/-! ### Initialization (`VulkanRenderer::new`, mod.rs 37-63) -/

/-- Modelled from the spec: `VulkanSwapchain::create` (swapchain.rs is not
in src/) negotiates the swapchain with the surface and stores the
driver-provided presentable images in the context (§4.4 of the spec).  The
image handles the driver returns are taken as an input. -/
def VulkanSwapchain.create (images : List Nat) (ctx : VulkanContext) : VulkanContext :=
  { ctx with swapchainImages := images }

/-- Modelled from the spec: `VulkanSwapchain::create_image_views`
(swapchain.rs is not in src/) "Builds one view per image (2D, matching
chosen format)" (§4.4).  View handles are abstract; one view is created per
swapchain image. -/
def VulkanSwapchain.createImageViews (ctx : VulkanContext) : VulkanContext :=
  { ctx with swapchainImageViews := ctx.swapchainImages.map (fun img => img + 1) }

/-- The handle-producing part of `VulkanPipeline::create` (pipeline.rs
14-127): stores a render pass, a pipeline layout and the graphics pipeline in
the context.  Handle values are abstract. -/
def VulkanPipeline.create (ctx : VulkanContext) : VulkanContext :=
  { ctx with renderPass := 1, pipelineLayout := 2, pipeline := 3 }

/-- Embeds `VulkanFramebuffer::create` (framebuffer.rs 8-25): one framebuffer per
swapchain image view. -/
def VulkanFramebuffer.create (ctx : VulkanContext) : VulkanContext :=
  { ctx with framebuffers := ctx.swapchainImageViews.map (fun v => v + 1) }

/-- Embeds `VulkanCommandBuffer::create_command_pool` (command_buffer.rs 13-27). -/
def createCommandPool (ctx : VulkanContext) : VulkanContext :=
  { ctx with commandPool := 4 }

/-- The command sequence recorded into command buffer `i` by
`VulkanCommandBuffer::create_command_buffers` (command_buffer.rs 40-80):
begin; begin render pass on framebuffer `i` with clear color
`[0.0, 0.0, 0.0, 1.0]`; bind the graphics pipeline; `cmd_draw(3, 1, 0, 0)`;
end render pass; end. -/
def recordCommands (ctx : VulkanContext) (i : Nat) : List Cmd :=
  [ Cmd.beginCommandBuffer,
    Cmd.beginRenderPass ctx.renderPass (ctx.framebuffers.getD i 0) 0 0 0 1,
    Cmd.bindPipeline .graphics ctx.pipeline,
    Cmd.draw 3 1 0 0,
    Cmd.endRenderPass,
    Cmd.endCommandBuffer ]

/-- Embeds `VulkanCommandBuffer::create_command_buffers` (command_buffer.rs 29-83):
allocate `framebuffers.len()` primary buffers and record each exactly once
with `recordCommands`. -/
def createCommandBuffers (ctx : VulkanContext) : VulkanContext :=
  { ctx with
      commandBuffers := (List.range ctx.framebuffers.length).map (fun i => 100 + i)
      commandRecordings := (List.range ctx.framebuffers.length).map (recordCommands ctx) }

/-- Embeds `VulkanRenderer::create_sync_objects` (mod.rs 65-91): one
image-available semaphore, one render-finished semaphore and one fence
(created signaled) per frame slot, and an images-in-flight map with a null
fence per swapchain image. -/
def createSyncObjects (ctx : VulkanContext) : VulkanContext :=
  { ctx with
      imageAvailableSemaphores := (List.range MAX_FRAMES_IN_FLIGHT).map (fun i => 200 + i)
      renderFinishedSemaphores := (List.range MAX_FRAMES_IN_FLIGHT).map (fun i => 300 + i)
      inFlightFences := (List.range MAX_FRAMES_IN_FLIGHT).map (fun i => 400 + i)
      imagesInFlight := ctx.swapchainImages.map (fun _ => none) }

/-- Embeds `VulkanRenderer::new` (mod.rs 37-63), at the context level: swapchain,
image views, pipeline, framebuffers, command pool, command buffers, sync
objects; the frame-slot index starts at 0.  `images` are the swapchain
images the driver returns. -/
def VulkanRenderer.new (images : List Nat) : VulkanRenderer :=
  let ctx := VulkanSwapchain.create images VulkanContext.empty
  let ctx := VulkanSwapchain.createImageViews ctx
  let ctx := VulkanPipeline.create ctx
  let ctx := VulkanFramebuffer.create ctx
  let ctx := createCommandPool ctx
  let ctx := createCommandBuffers ctx
  let ctx := createSyncObjects ctx
  { context := ctx, frame := 0 }

/-! ### Instance creation (`VulkanInstance::new`, instance.rs 24-111) -/

/-- What `VulkanInstance::new` produces on success: the instance handle, the
layer names it enabled, and the debug messenger (created only when
validation is enabled). -/
structure InstanceResult where
  instance_ : Nat
  enabledLayers : List String
  messenger : Option Nat
deriving DecidableEq, Repr

/-- Results of the fallible driver calls inside `VulkanInstance::new`. -/
structure InstanceOracle where
  createInstanceResult : Except VkError Nat
  createMessengerResult : Except VkError Nat
deriving Repr

/-- Embeds `VulkanInstance::new` (instance.rs 24-111): when validation is enabled
and the enumerated instance layers do not contain the validation layer,
return the error `"Validation layer requested but not supported."` before
creating anything; otherwise enable the validation layer exactly when
validation is enabled, create the instance, and create the debug messenger
only when validation is enabled. -/
def VulkanInstance.new (validationEnabled : Bool) (availableLayers : List String)
    (o : InstanceOracle) : Except VkError InstanceResult :=
  if validationEnabled && !(availableLayers.contains VALIDATION_LAYER) then
    .error (.message "Validation layer requested but not supported.")
  else
    let layers := if validationEnabled then [VALIDATION_LAYER] else []
    match o.createInstanceResult with
    | .error e => .error e
    | .ok inst =>
      if validationEnabled then
        match o.createMessengerResult with
        | .error e => .error e
        | .ok m => .ok ⟨inst, layers, some m⟩
      else
        .ok ⟨inst, layers, none⟩

/-! ### Shutdown (`Engine::run` close path, lib.rs 45-70; destroy chains) -/

/-- Embeds `VulkanPipeline::destroy` (pipeline.rs 141-156). -/
def VulkanPipeline.destroy (ctx : VulkanContext) : List VkCall :=
  [VkCall.destroyCommandPool ctx.commandPool]
    ++ ctx.framebuffers.map (fun f => VkCall.destroyFramebuffer f)
    ++ [VkCall.destroyPipeline ctx.pipeline,
        VkCall.destroyPipelineLayout ctx.pipelineLayout,
        VkCall.destroyRenderPass ctx.renderPass]

/-- Embeds `VulkanDevice::destroy` (device.rs 153-161). -/
def VulkanDevice.destroy (ctx : VulkanContext) : List VkCall :=
  ctx.swapchainImageViews.map (fun v => VkCall.destroyImageView v)
    ++ [VkCall.destroySwapchainKHR ctx.swapchain, VkCall.destroyDevice]

/-- Embeds `VulkanInstance::destroy` (instance.rs 113-121). -/
def VulkanInstance.destroy (validationEnabled : Bool) (ctx : VulkanContext) : List VkCall :=
  [VkCall.destroySurfaceKHR ctx.surface]
    ++ (if validationEnabled then [VkCall.destroyDebugUtilsMessenger ctx.messenger] else [])
    ++ [VkCall.destroyInstance]

/-- Embeds `VulkanRenderer::destroy` (mod.rs 161-183): fences, then the per-frame
semaphores, then the two singular semaphores, then the pipeline chain, the
device chain and the instance chain. -/
def VulkanRenderer.destroy (validationEnabled : Bool) (s : VulkanRenderer) : List VkCall :=
  s.context.inFlightFences.map (fun f => VkCall.destroyFence f)
    ++ s.context.renderFinishedSemaphores.map (fun m => VkCall.destroySemaphore m)
    ++ s.context.imageAvailableSemaphores.map (fun m => VkCall.destroySemaphore m)
    ++ [VkCall.destroySemaphore s.context.renderFinishedSemaphore,
        VkCall.destroySemaphore s.context.imageAvailableSemaphore]
    ++ VulkanPipeline.destroy s.context
    ++ VulkanDevice.destroy s.context
    ++ VulkanInstance.destroy validationEnabled s.context

/-- The close-requested path of `Engine::run` (lib.rs 56-61): on
`WindowEvent::CloseRequested` the loop exits and calls `renderer.destroy()`
directly — these are all the driver calls that path issues. -/
def Engine.closeRequested (validationEnabled : Bool) (s : VulkanRenderer) : List VkCall :=
  VulkanRenderer.destroy validationEnabled s

/-! ### Concrete sample state used by witnesses and counterexamples -/

/-- A renderer initialized with three swapchain images (handles 10, 20, 30),
as after `VulkanRenderer::new`. -/
def sampleRenderer : VulkanRenderer :=
  VulkanRenderer.new [10, 20, 30]

/-- An oracle in which every driver call succeeds and the acquire returns
image index 1. -/
def oracleOK : RenderOracle where
  wait1Result := .ok ()
  acquireResult := .ok 1
  wait2Result := .ok ()
  resetResult := .ok ()
  submitResult := .ok ()
  presentResult := .ok ()
  waitIdleResult := .ok ()

/-- Embeds `sampleRenderer` after one fully successful frame: its images-in-flight
map now holds the frame-0 fence for image 1, so a second frame that acquires
image 1 exercises the hazard path. -/
def sampleRenderer2 : VulkanRenderer :=
  (sampleRenderer.render oracleOK).renderer

/-! ### Helper lemmas shared by the claim theorems -/

/-- In a trace, every fence wait on `f` precedes every graphics-queue
submission: whenever position `j` holds a `queueSubmit`, a
`waitForFences [f]` occurs among the first `j` calls. -/
def waitPrecedesSubmits (tr : List VkCall) (f : Nat) : Prop :=
  ∀ j : Nat, (tr.getD j VkCall.deviceWaitIdle).isQueueSubmit = true →
    VkCall.waitForFences [f] true u64MAX ∈ tr.take j

theorem waitPrecedesSubmits_of_no_submit (tr : List VkCall) (f : Nat)
    (h : ∀ c ∈ tr, c.isQueueSubmit = false) : waitPrecedesSubmits tr f := by
  intro j hj
  by_cases hlt : j < tr.length
  · rw [List.getD_eq_getElem tr _ hlt] at hj
    exact absurd (h _ (List.getElem_mem hlt)) (by simp [hj])
  · rw [List.getD_eq_default tr _ (Nat.le_of_not_lt hlt)] at hj
    simp [VkCall.isQueueSubmit] at hj

theorem waitPrecedesSubmits_append (t1 t2 : List VkCall) (f : Nat)
    (h1 : VkCall.waitForFences [f] true u64MAX ∈ t1)
    (h2 : ∀ c ∈ t1, c.isQueueSubmit = false) :
    waitPrecedesSubmits (t1 ++ t2) f := by
  intro j hj
  by_cases hlt : j < t1.length
  · rw [List.getD_append _ _ _ _ hlt, List.getD_eq_getElem t1 _ hlt] at hj
    exact absurd (h2 _ (List.getElem_mem hlt)) (by simp [hj])
  · have hle : t1.length ≤ j := Nat.le_of_not_lt hlt
    rw [List.take_append_eq_append_take]
    exact List.mem_append_left _ (by rwa [List.take_of_length_le hle])

theorem renderAfterHazard_trace_shape (s : VulkanRenderer) (o : RenderOracle)
    (imageIndex : Nat) (t : List VkCall) :
    t <+: (renderAfterHazard s o imageIndex t).trace := by
  unfold renderAfterHazard
  rcases o.resetResult with e | u
  · exact List.prefix_append t _
  rcases o.submitResult with e | u
  · exact (List.prefix_append t _).trans (List.prefix_append _ _)
  rcases o.presentResult with e | u
  · exact ((List.prefix_append t _).trans (List.prefix_append _ _)).trans
      (List.prefix_append _ _)
  rcases o.waitIdleResult with e | u
  · exact (((List.prefix_append t _).trans (List.prefix_append _ _)).trans
      (List.prefix_append _ _)).trans (List.prefix_append _ _)
  · exact (((List.prefix_append t _).trans (List.prefix_append _ _)).trans
      (List.prefix_append _ _)).trans (List.prefix_append _ _)

theorem waitPrecedesSubmits_renderAfterHazard (s : VulkanRenderer) (o : RenderOracle)
    (imageIndex : Nat) (t : List VkCall) (f : Nat)
    (h1 : VkCall.waitForFences [f] true u64MAX ∈ t)
    (h2 : ∀ c ∈ t, c.isQueueSubmit = false) :
    waitPrecedesSubmits (renderAfterHazard s o imageIndex t).trace f := by
  obtain ⟨rest, hrest⟩ := renderAfterHazard_trace_shape s o imageIndex t
  rw [← hrest]
  exact waitPrecedesSubmits_append t rest f h1 h2

/-- Claim C1 — For every steady-state frame rendered by
`VulkanRenderer::render`, whenever the images-in-flight entry for the
acquired image index holds a fence differing from the current frame-slot's
fence, the renderer waits on that fence before recording the claim and
submitting: every graphics-queue submission in the frame's call trace is
preceded by a wait on that mapped fence, so a swapchain image is never
submitted to while the previous submission that used it is still pending. -/
theorem hazard_wait_precedes_submit (s : VulkanRenderer) (o : RenderOracle)
    (idx f : Nat)
    (hacq : o.acquireResult = .ok idx)
    (hmap : s.context.imagesInFlight.getD idx none = some f)
    (hne : f ≠ s.context.inFlightFences.getD s.frame 0) :
    waitPrecedesSubmits (s.render o).trace f := by
  unfold VulkanRenderer.render
  rcases o.wait1Result with e | u
  · exact waitPrecedesSubmits_of_no_submit _ _ (by
      intro c hc
      simp at hc
      simp [hc, VkCall.isQueueSubmit])
  simp only [hacq, hmap]
  rcases hw2 : o.wait2Result with e | u
  · exact waitPrecedesSubmits_of_no_submit _ _ (by
      intro c hc
      simp at hc
      rcases hc with hc | hc | hc <;> simp [hc, VkCall.isQueueSubmit])
  · exact waitPrecedesSubmits_renderAfterHazard s o idx _ f (by simp) (by
      intro c hc
      simp at hc
      rcases hc with hc | hc | hc <;> simp [hc, VkCall.isQueueSubmit])

/-- Witness for C1: a concrete second frame in which image 1 is still
mapped to the frame-0 fence (handle 400) while the current frame-slot 1 owns
fence 401; the hazard wait on fence 400 precedes the submission. -/
theorem hazard_wait_precedes_submit_witness :
    waitPrecedesSubmits (sampleRenderer2.render oracleOK).trace 400 :=
  hazard_wait_precedes_submit sampleRenderer2 oracleOK 1 400
    (by rfl) (by decide) (by decide)

theorem renderAfterHazard_calls (s : VulkanRenderer) (o : RenderOracle)
    (imageIndex : Nat) (t : List VkCall) :
    ∀ c ∈ (renderAfterHazard s o imageIndex t).trace,
      c ∈ t ∨ c.blocking = false ∨ c = VkCall.queueWaitIdle s.context.presentQueue := by
  unfold renderAfterHazard
  rcases o.resetResult with e | u
  · intro c hc
    simp only [List.mem_append, List.mem_cons, List.not_mem_nil, or_false] at hc
    rcases hc with hc | hc
    · exact Or.inl hc
    · exact Or.inr (Or.inl (by simp [hc, VkCall.blocking]))
  rcases o.submitResult with e | u
  · intro c hc
    simp only [List.mem_append, List.mem_cons, List.not_mem_nil, or_false] at hc
    rcases hc with (hc | hc) | hc
    · exact Or.inl hc
    · exact Or.inr (Or.inl (by simp [hc, VkCall.blocking]))
    · exact Or.inr (Or.inl (by simp [hc, VkCall.blocking]))
  rcases o.presentResult with e | u
  · intro c hc
    simp only [List.mem_append, List.mem_cons, List.not_mem_nil, or_false] at hc
    rcases hc with ((hc | hc) | hc) | hc
    · exact Or.inl hc
    · exact Or.inr (Or.inl (by simp [hc, VkCall.blocking]))
    · exact Or.inr (Or.inl (by simp [hc, VkCall.blocking]))
    · exact Or.inr (Or.inl (by simp [hc, VkCall.blocking]))
  rcases o.waitIdleResult with e | u <;>
  · intro c hc
    simp only [List.mem_append, List.mem_cons, List.not_mem_nil, or_false] at hc
    rcases hc with (((hc | hc) | hc) | hc) | hc
    · exact Or.inl hc
    · exact Or.inr (Or.inl (by simp [hc, VkCall.blocking]))
    · exact Or.inr (Or.inl (by simp [hc, VkCall.blocking]))
    · exact Or.inr (Or.inl (by simp [hc, VkCall.blocking]))
    · exact Or.inr (Or.inr hc)

theorem render_calls (s : VulkanRenderer) (o : RenderOracle) :
    ∀ c ∈ (s.render o).trace,
      c.isWaitForFences = true
      ∨ c = VkCall.acquireNextImageKHR s.context.swapchain u64MAX
          (s.context.imageAvailableSemaphores.getD s.frame 0)
      ∨ c.blocking = false
      ∨ c = VkCall.queueWaitIdle s.context.presentQueue := by
  unfold VulkanRenderer.render
  rcases o.wait1Result with e | u
  · intro c hc
    simp only [List.mem_cons, List.not_mem_nil, or_false] at hc
    exact Or.inl (by simp [hc, VkCall.isWaitForFences])
  rcases o.acquireResult with e | idx
  · intro c hc
    simp only [List.mem_append, List.mem_cons, List.not_mem_nil, or_false] at hc
    rcases hc with hc | hc
    · exact Or.inl (by simp [hc, VkCall.isWaitForFences])
    · exact Or.inr (Or.inl hc)
  rcases hM : s.context.imagesInFlight.getD idx none with _ | f <;> simp only [hM]
  · intro c hc
    rcases renderAfterHazard_calls s o idx _ c hc with h | h | h
    · simp only [List.mem_append, List.mem_cons, List.not_mem_nil, or_false] at h
      rcases h with h | h
      · exact Or.inl (by simp [h, VkCall.isWaitForFences])
      · exact Or.inr (Or.inl h)
    · exact Or.inr (Or.inr (Or.inl h))
    · exact Or.inr (Or.inr (Or.inr h))
  · rcases o.wait2Result with e | u
    · intro c hc
      simp only [List.mem_append, List.mem_cons, List.not_mem_nil, or_false] at hc
      rcases hc with (hc | hc) | hc
      · exact Or.inl (by simp [hc, VkCall.isWaitForFences])
      · exact Or.inr (Or.inl hc)
      · exact Or.inl (by simp [hc, VkCall.isWaitForFences])
    · intro c hc
      rcases renderAfterHazard_calls s o idx _ c hc with h | h | h
      · simp only [List.mem_append, List.mem_cons, List.not_mem_nil, or_false] at h
        rcases h with (h | h) | h
        · exact Or.inl (by simp [h, VkCall.isWaitForFences])
        · exact Or.inr (Or.inl h)
        · exact Or.inl (by simp [h, VkCall.isWaitForFences])
      · exact Or.inr (Or.inr (Or.inl h))
      · exact Or.inr (Or.inr (Or.inr h))

theorem renderAfterHazard_ok_mem (s : VulkanRenderer) (o : RenderOracle)
    (imageIndex : Nat) (t : List VkCall)
    (h : (renderAfterHazard s o imageIndex t).result = .ok ()) :
    VkCall.queueWaitIdle s.context.presentQueue ∈ (renderAfterHazard s o imageIndex t).trace := by
  unfold renderAfterHazard at h ⊢
  rcases hR : o.resetResult with e | u <;> simp only [hR] at h ⊢
  · simp at h
  rcases hS : o.submitResult with e | u <;> simp only [hS] at h ⊢
  · simp at h
  rcases hP : o.presentResult with e | u <;> simp only [hP] at h ⊢
  · simp at h
  rcases hI : o.waitIdleResult with e | u <;> simp only [hI] at h ⊢
  · simp at h
  · simp

theorem render_ok_waitIdle_mem (s : VulkanRenderer) (o : RenderOracle)
    (h : (s.render o).result = .ok ()) :
    VkCall.queueWaitIdle s.context.presentQueue ∈ (s.render o).trace := by
  unfold VulkanRenderer.render at h ⊢
  rcases hW : o.wait1Result with e | u <;> simp only [hW] at h ⊢
  · simp at h
  rcases hA : o.acquireResult with e | idx <;> simp only [hA] at h ⊢
  · simp at h
  rcases hM : s.context.imagesInFlight.getD idx none with _ | f <;> simp only [hM] at h ⊢
  · exact renderAfterHazard_ok_mem s o idx _ h
  · rcases hW2 : o.wait2Result with e | u <;> simp only [hW2] at h ⊢
    · simp at h
    · exact renderAfterHazard_ok_mem s o idx _ h

/-- Counterexample to claim C2 as stated: in a fully successful frame of the
concrete sample renderer, not every host-blocking call in the trace is a
fence wait — `VulkanRenderer::render` also calls
`queue_wait_idle(present_queue)` (mod.rs lines 152-154), a full-thread
blocking call. -/
theorem render_blocks_outside_fence_waits :
    ¬ (∀ c ∈ (sampleRenderer.render oracleOK).trace,
        c.blocking = true → c.isWaitForFences = true) := by
  decide

/-- Claim C2 (amended) — In every execution of the steady-state frame loop,
the CPU-blocking calls of `VulkanRenderer::render` are the wait on the
current frame-slot's fence, the conditional wait on the images-in-flight
fence, the acquire call (issued with an infinite timeout), and the
present-queue idle wait; moreover every fully successful frame performs the
present-queue idle wait. -/
theorem render_blocking_calls (s : VulkanRenderer) (o : RenderOracle) :
    (∀ c ∈ (s.render o).trace, c.blocking = true →
        c.isWaitForFences = true
        ∨ c = VkCall.acquireNextImageKHR s.context.swapchain u64MAX
            (s.context.imageAvailableSemaphores.getD s.frame 0)
        ∨ c = VkCall.queueWaitIdle s.context.presentQueue)
    ∧ ((s.render o).result = .ok () →
        VkCall.queueWaitIdle s.context.presentQueue ∈ (s.render o).trace) := by
  constructor
  · intro c hc hb
    rcases render_calls s o c hc with h | h | h | h
    · exact Or.inl h
    · exact Or.inr (Or.inl h)
    · rw [hb] at h
      cases h
    · exact Or.inr (Or.inr h)
  · exact render_ok_waitIdle_mem s o

/-- Witness for the amended C2 at the concrete sample frame: the
present-queue idle wait (queue handle 0) is classified by the theorem, and
it does occur in the successful frame's trace. -/
theorem render_blocking_calls_witness :
    ((VkCall.queueWaitIdle 0).isWaitForFences = true
      ∨ VkCall.queueWaitIdle 0 = VkCall.acquireNextImageKHR
          sampleRenderer.context.swapchain u64MAX
          (sampleRenderer.context.imageAvailableSemaphores.getD sampleRenderer.frame 0)
      ∨ VkCall.queueWaitIdle 0 = VkCall.queueWaitIdle sampleRenderer.context.presentQueue)
    ∧ VkCall.queueWaitIdle sampleRenderer.context.presentQueue
        ∈ (sampleRenderer.render oracleOK).trace :=
  ⟨(render_blocking_calls sampleRenderer oracleOK).1 (VkCall.queueWaitIdle 0)
      (by decide) (by decide),
   (render_blocking_calls sampleRenderer oracleOK).2 (by rfl)⟩

theorem renderAfterHazard_submit_shape (s : VulkanRenderer) (o : RenderOracle)
    (imageIndex : Nat) (t : List VkCall) (hr : o.resetResult = .ok ()) :
    ∃ rest, (renderAfterHazard s o imageIndex t).trace =
        t ++ [VkCall.resetFences [s.context.inFlightFences.getD s.frame 0],
              VkCall.queueSubmit s.context.graphicsQueue
                [{ waitSemaphores := [s.context.imageAvailableSemaphores.getD s.frame 0]
                   waitDstStageMask := [PipelineStage.colorAttachmentOutput]
                   commandBuffers := [s.context.commandBuffers.getD imageIndex 0]
                   signalSemaphores := [s.context.renderFinishedSemaphores.getD s.frame 0] }]
                (s.context.inFlightFences.getD s.frame 0)] ++ rest
      ∧ ∀ c ∈ rest, c.isResetFences = false ∧ c.isQueueSubmit = false := by
  unfold renderAfterHazard
  simp only [hr]
  rcases o.submitResult with e | u
  · exact ⟨[], by simp, by simp⟩
  rcases o.presentResult with e | u
  · refine ⟨[VkCall.queuePresentKHR s.context.presentQueue
        [s.context.renderFinishedSemaphores.getD s.frame 0]
        [s.context.swapchain] [imageIndex]], by simp, ?_⟩
    intro c hc
    simp only [List.mem_cons, List.not_mem_nil, or_false] at hc
    simp [hc, VkCall.isResetFences, VkCall.isQueueSubmit]
  rcases o.waitIdleResult with e | u <;>
  · refine ⟨[VkCall.queuePresentKHR s.context.presentQueue
        [s.context.renderFinishedSemaphores.getD s.frame 0]
        [s.context.swapchain] [imageIndex],
      VkCall.queueWaitIdle s.context.presentQueue], by simp, ?_⟩
    intro c hc
    simp only [List.mem_cons, List.not_mem_nil, or_false] at hc
    rcases hc with hc | hc <;> simp [hc, VkCall.isResetFences, VkCall.isQueueSubmit]

/-- Claim C4 — In every frame whose control flow reaches the submission, the
graphics-queue submission uses the pre-recorded command buffer for the
acquired image index, waits on the frame-slot's image-available semaphore at
the color-attachment-output stage, signals the frame-slot's render-finished
semaphore, and signals the frame-slot's fence; the frame-slot's fence is
reset immediately before this submission (the reset is the adjacent
preceding call) and never reset after it (no reset or further submission
occurs anywhere else in the frame's trace). -/
theorem render_submit_protocol (s : VulkanRenderer) (o : RenderOracle) (idx : Nat)
    (h1 : o.wait1Result = .ok ())
    (h2 : o.acquireResult = .ok idx)
    (h3 : o.wait2Result = .ok ())
    (h4 : o.resetResult = .ok ()) :
    ∃ pre rest, (s.render o).trace =
        pre ++ [VkCall.resetFences [s.context.inFlightFences.getD s.frame 0],
                VkCall.queueSubmit s.context.graphicsQueue
                  [{ waitSemaphores := [s.context.imageAvailableSemaphores.getD s.frame 0]
                     waitDstStageMask := [PipelineStage.colorAttachmentOutput]
                     commandBuffers := [s.context.commandBuffers.getD idx 0]
                     signalSemaphores := [s.context.renderFinishedSemaphores.getD s.frame 0] }]
                  (s.context.inFlightFences.getD s.frame 0)] ++ rest
      ∧ (∀ c ∈ pre, c.isResetFences = false ∧ c.isQueueSubmit = false)
      ∧ (∀ c ∈ rest, c.isResetFences = false ∧ c.isQueueSubmit = false) := by
  unfold VulkanRenderer.render
  simp only [h1, h2]
  rcases hM : s.context.imagesInFlight.getD idx none with _ | f <;> simp only [hM]
  · obtain ⟨rest, hshape, hrest⟩ := renderAfterHazard_submit_shape s o idx
      ([VkCall.waitForFences [s.context.inFlightFences.getD s.frame 0] true u64MAX] ++
        [VkCall.acquireNextImageKHR s.context.swapchain u64MAX
          (s.context.imageAvailableSemaphores.getD s.frame 0)]) h4
    refine ⟨_, rest, hshape, ?_, hrest⟩
    intro c hc
    simp only [List.mem_append, List.mem_cons, List.not_mem_nil, or_false] at hc
    rcases hc with hc | hc <;> simp [hc, VkCall.isResetFences, VkCall.isQueueSubmit]
  · simp only [h3]
    obtain ⟨rest, hshape, hrest⟩ := renderAfterHazard_submit_shape s o idx
      ([VkCall.waitForFences [s.context.inFlightFences.getD s.frame 0] true u64MAX] ++
        [VkCall.acquireNextImageKHR s.context.swapchain u64MAX
          (s.context.imageAvailableSemaphores.getD s.frame 0)] ++
        [VkCall.waitForFences [f] true u64MAX]) h4
    refine ⟨_, rest, hshape, ?_, hrest⟩
    intro c hc
    simp only [List.mem_append, List.mem_cons, List.not_mem_nil, or_false] at hc
    rcases hc with (hc | hc) | hc <;>
      simp [hc, VkCall.isResetFences, VkCall.isQueueSubmit]

/-- Witness for C4 at the concrete second sample frame (frame-slot 1,
acquired image 1): the reset of fence 401 immediately precedes the
submission of command buffer 101 waiting on semaphore 201 and signaling
semaphore 301 and fence 401, with no reset or submission elsewhere. -/
theorem render_submit_protocol_witness :
    ∃ pre rest, (sampleRenderer2.render oracleOK).trace =
        pre ++ [VkCall.resetFences
                  [sampleRenderer2.context.inFlightFences.getD sampleRenderer2.frame 0],
                VkCall.queueSubmit sampleRenderer2.context.graphicsQueue
                  [{ waitSemaphores :=
                       [sampleRenderer2.context.imageAvailableSemaphores.getD
                          sampleRenderer2.frame 0]
                     waitDstStageMask := [PipelineStage.colorAttachmentOutput]
                     commandBuffers := [sampleRenderer2.context.commandBuffers.getD 1 0]
                     signalSemaphores :=
                       [sampleRenderer2.context.renderFinishedSemaphores.getD
                          sampleRenderer2.frame 0] }]
                  (sampleRenderer2.context.inFlightFences.getD sampleRenderer2.frame 0)] ++ rest
      ∧ (∀ c ∈ pre, c.isResetFences = false ∧ c.isQueueSubmit = false)
      ∧ (∀ c ∈ rest, c.isResetFences = false ∧ c.isQueueSubmit = false) :=
  render_submit_protocol sampleRenderer2 oracleOK 1 (by rfl) (by rfl) (by rfl) (by rfl)

/-- Claim C10 — Whenever `VulkanRenderer::render` returns an error, that
error is one propagated from a failing driver call (fence waits, acquire,
fence reset, submit, present or the present-queue idle wait) and the
frame-slot index `frame` is left unchanged, so a subsequent call reuses the
same frame slot. -/
theorem render_error_keeps_frame (s : VulkanRenderer) (o : RenderOracle) (e : VkError)
    (h : (s.render o).result = .error e) :
    (s.render o).renderer.frame = s.frame
    ∧ (o.wait1Result = .error e ∨ o.acquireResult = .error e ∨ o.wait2Result = .error e
       ∨ o.resetResult = .error e ∨ o.submitResult = .error e ∨ o.presentResult = .error e
       ∨ o.waitIdleResult = .error e) := by
  unfold VulkanRenderer.render at h ⊢
  rcases hW : o.wait1Result with e1 | u <;> simp only [hW] at h ⊢
  · simp at h
    exact ⟨by trivial, Or.inl (by rw [h])⟩
  rcases hA : o.acquireResult with e1 | idx <;> simp only [hA] at h ⊢
  · simp at h
    exact ⟨by trivial, Or.inr (Or.inl (by rw [h]))⟩
  rcases hM : s.context.imagesInFlight.getD idx none with _ | f <;> simp only [hM] at h ⊢
  case _ =>
    unfold renderAfterHazard at h ⊢
    rcases hR : o.resetResult with e1 | u <;> simp only [hR] at h ⊢
    · simp at h
      exact ⟨by trivial, Or.inr (Or.inr (Or.inr (Or.inl (by rw [h]))))⟩
    rcases hS : o.submitResult with e1 | u <;> simp only [hS] at h ⊢
    · simp at h
      exact ⟨by trivial, Or.inr (Or.inr (Or.inr (Or.inr (Or.inl (by rw [h])))))⟩
    rcases hP : o.presentResult with e1 | u <;> simp only [hP] at h ⊢
    · simp at h
      exact ⟨by trivial, Or.inr (Or.inr (Or.inr (Or.inr (Or.inr (Or.inl (by rw [h]))))))⟩
    rcases hI : o.waitIdleResult with e1 | u <;> simp only [hI] at h ⊢
    · simp at h
      exact ⟨by trivial, Or.inr (Or.inr (Or.inr (Or.inr (Or.inr (Or.inr (by rw [h]))))))⟩
    · simp at h
  case _ =>
    rcases hW2 : o.wait2Result with e1 | u <;> simp only [hW2] at h ⊢
    · simp at h
      exact ⟨by trivial, Or.inr (Or.inr (Or.inl (by rw [h])))⟩
    unfold renderAfterHazard at h ⊢
    rcases hR : o.resetResult with e1 | u <;> simp only [hR] at h ⊢
    · simp at h
      exact ⟨by trivial, Or.inr (Or.inr (Or.inr (Or.inl (by rw [h]))))⟩
    rcases hS : o.submitResult with e1 | u <;> simp only [hS] at h ⊢
    · simp at h
      exact ⟨by trivial, Or.inr (Or.inr (Or.inr (Or.inr (Or.inl (by rw [h])))))⟩
    rcases hP : o.presentResult with e1 | u <;> simp only [hP] at h ⊢
    · simp at h
      exact ⟨by trivial, Or.inr (Or.inr (Or.inr (Or.inr (Or.inr (Or.inl (by rw [h]))))))⟩
    rcases hI : o.waitIdleResult with e1 | u <;> simp only [hI] at h ⊢
    · simp at h
      exact ⟨by trivial, Or.inr (Or.inr (Or.inr (Or.inr (Or.inr (Or.inr (by rw [h]))))))⟩
    · simp at h

/-- An oracle in which the very first fence wait fails. -/
def oracleFailWait1 : RenderOracle where
  wait1Result := .error (.code 7)
  acquireResult := .ok 0
  wait2Result := .ok ()
  resetResult := .ok ()
  submitResult := .ok ()
  presentResult := .ok ()
  waitIdleResult := .ok ()

/-- Witness for C10: a concrete frame whose first fence wait fails with
driver code 7 leaves the frame-slot index unchanged and propagates exactly
that error. -/
theorem render_error_keeps_frame_witness :
    (sampleRenderer.render oracleFailWait1).renderer.frame = sampleRenderer.frame
    ∧ (oracleFailWait1.wait1Result = .error (.code 7)
       ∨ oracleFailWait1.acquireResult = .error (.code 7)
       ∨ oracleFailWait1.wait2Result = .error (.code 7)
       ∨ oracleFailWait1.resetResult = .error (.code 7)
       ∨ oracleFailWait1.submitResult = .error (.code 7)
       ∨ oracleFailWait1.presentResult = .error (.code 7)
       ∨ oracleFailWait1.waitIdleResult = .error (.code 7)) :=
  render_error_keeps_frame sampleRenderer oracleFailWait1 (.code 7) (by rfl)

theorem renderAfterHazard_static (s : VulkanRenderer) (o : RenderOracle)
    (imageIndex : Nat) (t : List VkCall) :
    (renderAfterHazard s o imageIndex t).renderer.context.commandBuffers
        = s.context.commandBuffers
    ∧ (renderAfterHazard s o imageIndex t).renderer.context.framebuffers
        = s.context.framebuffers
    ∧ (renderAfterHazard s o imageIndex t).renderer.context.swapchainImages
        = s.context.swapchainImages
    ∧ (renderAfterHazard s o imageIndex t).renderer.context.swapchainImageViews
        = s.context.swapchainImageViews
    ∧ (renderAfterHazard s o imageIndex t).renderer.context.commandRecordings
        = s.context.commandRecordings := by
  unfold renderAfterHazard
  rcases o.resetResult with e | u
  · exact ⟨rfl, rfl, rfl, rfl, rfl⟩
  rcases o.submitResult with e | u
  · exact ⟨rfl, rfl, rfl, rfl, rfl⟩
  rcases o.presentResult with e | u
  · exact ⟨rfl, rfl, rfl, rfl, rfl⟩
  rcases o.waitIdleResult with e | u
  · exact ⟨rfl, rfl, rfl, rfl, rfl⟩
  · exact ⟨rfl, rfl, rfl, rfl, rfl⟩

theorem render_preserves_static (s : VulkanRenderer) (o : RenderOracle) :
    (s.render o).renderer.context.commandBuffers = s.context.commandBuffers
    ∧ (s.render o).renderer.context.framebuffers = s.context.framebuffers
    ∧ (s.render o).renderer.context.swapchainImages = s.context.swapchainImages
    ∧ (s.render o).renderer.context.swapchainImageViews = s.context.swapchainImageViews
    ∧ (s.render o).renderer.context.commandRecordings = s.context.commandRecordings := by
  unfold VulkanRenderer.render
  rcases o.wait1Result with e | u
  · exact ⟨rfl, rfl, rfl, rfl, rfl⟩
  rcases o.acquireResult with e | idx
  · exact ⟨rfl, rfl, rfl, rfl, rfl⟩
  rcases hM : s.context.imagesInFlight.getD idx none with _ | f <;> simp only [hM]
  · exact renderAfterHazard_static s o idx _
  · rcases o.wait2Result with e | u
    · exact ⟨rfl, rfl, rfl, rfl, rfl⟩
    · exact renderAfterHazard_static s o idx _

/-- Claim C6 — After initialization the command-buffer count, the
framebuffer count and the swapchain image-view count all equal the swapchain
image count, and a render call never changes any of the four collections, so
the equalities are preserved for the whole run. -/
theorem resource_counts_equal (images : List Nat) :
    ((VulkanRenderer.new images).context.commandBuffers.length
        = (VulkanRenderer.new images).context.swapchainImages.length
      ∧ (VulkanRenderer.new images).context.framebuffers.length
        = (VulkanRenderer.new images).context.swapchainImages.length
      ∧ (VulkanRenderer.new images).context.swapchainImageViews.length
        = (VulkanRenderer.new images).context.swapchainImages.length)
    ∧ ∀ (s : VulkanRenderer) (o : RenderOracle),
        (s.render o).renderer.context.commandBuffers = s.context.commandBuffers
        ∧ (s.render o).renderer.context.framebuffers = s.context.framebuffers
        ∧ (s.render o).renderer.context.swapchainImages = s.context.swapchainImages
        ∧ (s.render o).renderer.context.swapchainImageViews = s.context.swapchainImageViews := by
  constructor
  · simp [VulkanRenderer.new, VulkanSwapchain.create, VulkanSwapchain.createImageViews,
      VulkanPipeline.create, VulkanFramebuffer.create, createCommandPool,
      createCommandBuffers, createSyncObjects]
  · intro s o
    obtain ⟨h1, h2, h3, h4, _⟩ := render_preserves_static s o
    exact ⟨h1, h2, h3, h4⟩

/-- Claim C7 — Every allocated command buffer `i` is recorded exactly once
with the sequence: begin buffer; begin render pass on framebuffer `i` with
clear color opaque black `(0,0,0,1)`; bind the graphics pipeline; one
non-indexed draw of 3 vertices and 1 instance; end render pass; end buffer —
with no vertex buffer ever bound, and no render call ever changes any
recording afterwards. -/
theorem command_buffers_recorded_once (images : List Nat) (i : Nat)
    (h : i < images.length) :
    ((VulkanRenderer.new images).context.commandRecordings.getD i []
        = [Cmd.beginCommandBuffer,
           Cmd.beginRenderPass 1 (images.getD i 0 + 1 + 1) 0 0 0 1,
           Cmd.bindPipeline .graphics 3,
           Cmd.draw 3 1 0 0,
           Cmd.endRenderPass,
           Cmd.endCommandBuffer]
      ∧ ∀ c ∈ (VulkanRenderer.new images).context.commandRecordings.getD i [],
          c.isBindVertexBuffers = false)
    ∧ ∀ (s : VulkanRenderer) (o : RenderOracle),
        (s.render o).renderer.context.commandRecordings = s.context.commandRecordings := by
  have hmain : (VulkanRenderer.new images).context.commandRecordings.getD i []
      = [Cmd.beginCommandBuffer,
         Cmd.beginRenderPass 1 (images.getD i 0 + 1 + 1) 0 0 0 1,
         Cmd.bindPipeline .graphics 3,
         Cmd.draw 3 1 0 0,
         Cmd.endRenderPass,
         Cmd.endCommandBuffer] := by
    have hlen : i < ((List.range ((images.map (fun img => img + 1)).map
        (fun v => v + 1)).length).map
          (recordCommands ((createCommandPool (VulkanFramebuffer.create
            (VulkanPipeline.create (VulkanSwapchain.createImageViews
              (VulkanSwapchain.create images VulkanContext.empty)))))))).length := by
      simpa using h
    rw [show (VulkanRenderer.new images).context.commandRecordings
        = (List.range ((images.map (fun img => img + 1)).map (fun v => v + 1)).length).map
            (recordCommands ((createCommandPool (VulkanFramebuffer.create
              (VulkanPipeline.create (VulkanSwapchain.createImageViews
                (VulkanSwapchain.create images VulkanContext.empty))))))) from rfl]
    rw [List.getD_eq_getElem _ _ hlen]
    simp [recordCommands, createCommandPool, VulkanFramebuffer.create,
      VulkanPipeline.create, VulkanSwapchain.createImageViews, VulkanSwapchain.create,
      List.getD_eq_getElem, h]
  refine ⟨⟨hmain, ?_⟩, ?_⟩
  · rw [hmain]
    intro c hc
    simp only [List.mem_cons, List.not_mem_nil, or_false] at hc
    rcases hc with hc | hc | hc | hc | hc | hc <;> simp [hc, Cmd.isBindVertexBuffers]
  · intro s o
    exact (render_preserves_static s o).2.2.2.2

/-- Claim C7 witness at a concrete renderer with swapchain images
`[10, 20, 30]`: command buffer 1 is recorded with the fixed six-command
sequence targeting framebuffer 22 and draws 3 vertices in 1 instance. -/
theorem command_buffers_recorded_once_witness :
    ((VulkanRenderer.new [10, 20, 30]).context.commandRecordings.getD 1 []
        = [Cmd.beginCommandBuffer,
           Cmd.beginRenderPass 1 ([10, 20, 30].getD 1 0 + 1 + 1) 0 0 0 1,
           Cmd.bindPipeline .graphics 3,
           Cmd.draw 3 1 0 0,
           Cmd.endRenderPass,
           Cmd.endCommandBuffer]
      ∧ ∀ c ∈ (VulkanRenderer.new [10, 20, 30]).context.commandRecordings.getD 1 [],
          c.isBindVertexBuffers = false)
    ∧ ∀ (s : VulkanRenderer) (o : RenderOracle),
        (s.render o).renderer.context.commandRecordings = s.context.commandRecordings :=
  command_buffers_recorded_once [10, 20, 30] 1 (by decide)

/-- Claim C5 (evaluating the code at the failing input) — On the
close-requested path the engine performs no device-wide idle wait and in
fact no blocking call at all: the very first driver call of the shutdown
sequence already destroys an in-flight fence.  This contradicts the claim
that a device-wide idle wait precedes the destruction of every
synchronization object (`Engine::run` calls `renderer.destroy()` directly;
`VulkanRenderer::device_wait_idle` exists but is never invoked). -/
theorem nonblocking_map_mem (g : Nat → VkCall)
    (hg : ∀ x, g x ≠ VkCall.deviceWaitIdle ∧ (g x).blocking = false) (l : List Nat) :
    ∀ c ∈ l.map g, c ≠ VkCall.deviceWaitIdle ∧ c.blocking = false := by
  intro c hc
  obtain ⟨x, -, rfl⟩ := List.mem_map.1 hc
  exact hg x

theorem nonblocking_append (l₁ l₂ : List VkCall)
    (h1 : ∀ c ∈ l₁, c ≠ VkCall.deviceWaitIdle ∧ c.blocking = false)
    (h2 : ∀ c ∈ l₂, c ≠ VkCall.deviceWaitIdle ∧ c.blocking = false) :
    ∀ c ∈ l₁ ++ l₂, c ≠ VkCall.deviceWaitIdle ∧ c.blocking = false := by
  intro c hc
  rcases List.mem_append.1 hc with h | h
  · exact h1 c h
  · exact h2 c h

theorem pipeline_destroy_nonblocking (ctx : VulkanContext) :
    ∀ c ∈ VulkanPipeline.destroy ctx,
      c ≠ VkCall.deviceWaitIdle ∧ c.blocking = false := by
  unfold VulkanPipeline.destroy
  refine nonblocking_append _ _ (nonblocking_append _ _ ?_ ?_) ?_
  · intro c hc
    simp only [List.mem_cons, List.not_mem_nil, or_false] at hc
    simp [hc, VkCall.blocking]
  · exact nonblocking_map_mem (fun f => VkCall.destroyFramebuffer f)
      (fun x => ⟨by simp, by simp [VkCall.blocking]⟩) _
  · intro c hc
    simp only [List.mem_cons, List.not_mem_nil, or_false] at hc
    rcases hc with hc | hc | hc <;> simp [hc, VkCall.blocking]

theorem device_destroy_nonblocking (ctx : VulkanContext) :
    ∀ c ∈ VulkanDevice.destroy ctx,
      c ≠ VkCall.deviceWaitIdle ∧ c.blocking = false := by
  unfold VulkanDevice.destroy
  refine nonblocking_append _ _ ?_ ?_
  · exact nonblocking_map_mem (fun v => VkCall.destroyImageView v)
      (fun x => ⟨by simp, by simp [VkCall.blocking]⟩) _
  · intro c hc
    simp only [List.mem_cons, List.not_mem_nil, or_false] at hc
    rcases hc with hc | hc <;> simp [hc, VkCall.blocking]

theorem instance_destroy_nonblocking (ve : Bool) (ctx : VulkanContext) :
    ∀ c ∈ VulkanInstance.destroy ve ctx,
      c ≠ VkCall.deviceWaitIdle ∧ c.blocking = false := by
  unfold VulkanInstance.destroy
  refine nonblocking_append _ _ (nonblocking_append _ _ ?_ ?_) ?_
  · intro c hc
    simp only [List.mem_cons, List.not_mem_nil, or_false] at hc
    simp [hc, VkCall.blocking]
  · cases ve
    · intro c hc
      simp at hc
    · intro c hc
      simp only [if_pos] at hc
      simp only [List.mem_cons, List.not_mem_nil, or_false] at hc
      simp [hc, VkCall.blocking]
  · intro c hc
    simp only [List.mem_cons, List.not_mem_nil, or_false] at hc
    simp [hc, VkCall.blocking]

/-- Claim C5 (evaluating the code at the failing input) — On the
close-requested path the engine performs no device-wide idle wait and in
fact no blocking call at all: the very first driver call of the shutdown
sequence already destroys an in-flight fence.  This contradicts the claim
that a device-wide idle wait precedes the destruction of every
synchronization object (`Engine::run` calls `renderer.destroy()` directly;
`VulkanRenderer::device_wait_idle` exists but is never invoked). -/
theorem close_requested_destroys_without_idle_wait (ve : Bool) (s : VulkanRenderer) :
    (∀ c ∈ Engine.closeRequested ve s,
        c ≠ VkCall.deviceWaitIdle ∧ c.blocking = false)
    ∧ (s.context.inFlightFences ≠ [] →
        ∃ f, (Engine.closeRequested ve s).head? = some (VkCall.destroyFence f)) := by
  constructor
  · unfold Engine.closeRequested VulkanRenderer.destroy
    refine nonblocking_append _ _ (nonblocking_append _ _ (nonblocking_append _ _
      (nonblocking_append _ _ (nonblocking_append _ _ (nonblocking_append _ _
        ?_ ?_) ?_) ?_) ?_) ?_) ?_
    · exact nonblocking_map_mem (fun f => VkCall.destroyFence f)
        (fun x => ⟨by simp, by simp [VkCall.blocking]⟩) _
    · exact nonblocking_map_mem (fun m => VkCall.destroySemaphore m)
        (fun x => ⟨by simp, by simp [VkCall.blocking]⟩) _
    · exact nonblocking_map_mem (fun m => VkCall.destroySemaphore m)
        (fun x => ⟨by simp, by simp [VkCall.blocking]⟩) _
    · intro c hc
      simp only [List.mem_cons, List.not_mem_nil, or_false] at hc
      rcases hc with hc | hc <;> simp [hc, VkCall.blocking]
    · exact pipeline_destroy_nonblocking _
    · exact device_destroy_nonblocking _
    · exact instance_destroy_nonblocking _ _
  · intro hne
    unfold Engine.closeRequested VulkanRenderer.destroy
    rcases hF : s.context.inFlightFences with _ | ⟨f, fs⟩
    · exact absurd hF hne
    · exact ⟨f, by simp⟩

/-- Witness for C5's evaluation: with validation enabled and the sample
renderer, the first shutdown call destroys fence 400 and no shutdown call is
a device or fence wait. -/
theorem close_requested_destroys_without_idle_wait_witness :
    (VkCall.destroyFence 400 ≠ VkCall.deviceWaitIdle
      ∧ (VkCall.destroyFence 400).blocking = false)
    ∧ ∃ f, (Engine.closeRequested true sampleRenderer).head?
        = some (VkCall.destroyFence f) :=
  ⟨(close_requested_destroys_without_idle_wait true sampleRenderer).1
      (VkCall.destroyFence 400) (by decide),
   (close_requested_destroys_without_idle_wait true sampleRenderer).2 (by decide)⟩

/-- Counterexample to claim C8 as stated: the blend configured at
pipeline.rs lines 77-85 does not leave the destination alpha untouched — at
source alpha 0 over destination alpha 1, the blended alpha is
`1*src.a + 0*dst.a = 0`, not the destination's 1 (the write mask includes
the alpha channel). -/
theorem blend_overwrites_dst_alpha :
    blendedAlpha colorBlendAttachment (Color.mk 0 0 0 0) (Color.mk 0 0 0 1)
      ≠ (Color.mk 0 0 0 1).a := by
  norm_num [blendedAlpha, colorBlendAttachment, BlendFactor.eval]

/-- Claim C8 (amended) — The color-blend attachment state enables blending
with source-over compositing for color (source factor = source alpha,
destination factor = one-minus-source-alpha, op add), while the alpha
written by the blend equals the source alpha (alpha factors one and zero):
the destination alpha is replaced by the source alpha, not preserved. -/
theorem blend_source_over (src dst : Color) :
    colorBlendAttachment.blendEnable = true
    ∧ colorBlendAttachment.srcColorBlendFactor = BlendFactor.srcAlpha
    ∧ colorBlendAttachment.dstColorBlendFactor = BlendFactor.oneMinusSrcAlpha
    ∧ blendedChannel colorBlendAttachment src src.r dst.r
        = src.a * src.r + (1 - src.a) * dst.r
    ∧ blendedAlpha colorBlendAttachment src dst = src.a := by
  refine ⟨rfl, rfl, rfl, ?_, ?_⟩ <;>
    simp [blendedChannel, blendedAlpha, colorBlendAttachment, BlendFactor.eval]

/-- Claim C9 — If validation is requested and the validation layer is not
among the enumerated instance layers, instance creation returns the error
the spec's taxonomy calls `MissingCapability` (in the code, the
`"Validation layer requested but not supported."` failure) rather than
silently continuing; creation succeeds only when the layer is available or
validation is disabled. -/
theorem instance_validation_layer_gate (ve : Bool) (layers : List String)
    (o : InstanceOracle) :
    (ve = true → VALIDATION_LAYER ∉ layers →
        VulkanInstance.new ve layers o =
          .error (.message "Validation layer requested but not supported."))
    ∧ (∀ r, VulkanInstance.new ve layers o = .ok r →
        ve = false ∨ VALIDATION_LAYER ∈ layers) := by
  constructor
  · intro hv hmem
    unfold VulkanInstance.new
    rw [hv]
    simp [hmem]
  · intro r hr
    by_cases hv : ve = true
    · by_cases hmem : VALIDATION_LAYER ∈ layers
      · exact Or.inr hmem
      · exfalso
        unfold VulkanInstance.new at hr
        rw [hv] at hr
        simp [hmem] at hr
    · exact Or.inl (by simpa using hv)

/-- An instance-creation oracle in which both driver calls succeed. -/
def instanceOracleOK : InstanceOracle where
  createInstanceResult := .ok 1
  createMessengerResult := .ok 2

/-- Witness for C9: with validation enabled and no layers enumerated,
instance creation returns the missing-validation-layer error even though
every driver call would succeed. -/
theorem instance_validation_layer_gate_witness :
    VulkanInstance.new true [] instanceOracleOK =
      .error (.message "Validation layer requested but not supported.") :=
  (instance_validation_layer_gate true [] instanceOracleOK).1 rfl (by simp)

/-- The adapter-suitability predicate exactly as the spec states it: at
least one graphics-capable queue family, at least one present-capable queue
family for the surface, every required device extension present, and
non-empty surface-format and present-mode lists. -/
def SuitableSpec (d : PhysicalDevice) : Prop :=
  (∃ qf ∈ d.queueFamilies, qf.graphics = true)
  ∧ (∃ qf ∈ d.queueFamilies, qf.presentSupport = true)
  ∧ (∀ e ∈ DEVICE_EXTENSIONS, e ∈ d.extensions)
  ∧ d.formats ≠ [] ∧ d.presentModes ≠ []

theorem checkPhysicalDevice_ok_iff (d : PhysicalDevice) :
    checkPhysicalDevice d = .ok () ↔ SuitableSpec d := by
  unfold checkPhysicalDevice QueueFamilyIndices.get checkPhysicalDeviceExtensions
    VulkanSwapchain.get
  rcases hg : d.queueFamilies.findIdx? (fun p => p.graphics) with _ | g <;>
    rcases hp : d.queueFamilies.findIdx? (fun p => p.presentSupport) with _ | p <;>
    simp only [hg, hp]
  · constructor
    · intro h
      simp at h
    · rintro ⟨⟨qf, hqf, hqg⟩, -⟩
      have := List.findIdx?_eq_none_iff.1 hg qf hqf
      simp [hqg] at this
  · constructor
    · intro h
      simp at h
    · rintro ⟨⟨qf, hqf, hqg⟩, -⟩
      have := List.findIdx?_eq_none_iff.1 hg qf hqf
      simp [hqg] at this
  · constructor
    · intro h
      simp at h
    · rintro ⟨-, ⟨qf, hqf, hqp⟩, -⟩
      have := List.findIdx?_eq_none_iff.1 hp qf hqf
      simp [hqp] at this
  · have hgm : ∃ qf ∈ d.queueFamilies, qf.graphics = true := by
      obtain ⟨hlt, hpx, -⟩ := List.findIdx?_eq_some_iff_getElem.1 hg
      exact ⟨d.queueFamilies.get ⟨g, hlt⟩, List.get_mem _ _ hlt, by simpa using hpx⟩
    have hpm : ∃ qf ∈ d.queueFamilies, qf.presentSupport = true := by
      obtain ⟨hlt, hpx, -⟩ := List.findIdx?_eq_some_iff_getElem.1 hp
      exact ⟨d.queueFamilies.get ⟨p, hlt⟩, List.get_mem _ _ hlt, by simpa using hpx⟩
    rcases hext : DEVICE_EXTENSIONS.all (fun e => d.extensions.contains e) with _ | _
    · rw [if_neg (by simp)]
      constructor
      · intro h
        simp at h
      · rintro ⟨-, -, hall, -⟩
        have : DEVICE_EXTENSIONS.all (fun e => d.extensions.contains e) = true := by
          refine List.all_eq_true.2 ?_
          intro e he
          simpa using hall e he
        rw [hext] at this
        simp at this
    · rw [if_pos rfl]
      rcases hfp : (d.formats.isEmpty || d.presentModes.isEmpty) with _ | _
      · rw [if_neg (by simp)]
        constructor
        · intro _
          refine ⟨hgm, hpm, ?_, ?_, ?_⟩
          · intro e he
            have := List.all_eq_true.1 hext e he
            simpa using this
          · have := (Bool.or_eq_false_iff.1 hfp).1
            simpa using this
          · have := (Bool.or_eq_false_iff.1 hfp).2
            simpa using this
        · intro _
          rfl
      · rw [if_pos rfl]
        constructor
        · intro h
          simp at h
        · rintro ⟨-, -, -, hf, hm⟩
          rcases Bool.or_eq_true_iff.1 hfp with h | h
          · exact (hf (by simpa using h)).elim
          · exact (hm (by simpa using h)).elim

theorem pickPhysicalDevice_cons_ok (a : PhysicalDevice) (rest : List PhysicalDevice)
    (ha : checkPhysicalDevice a = .ok ()) :
    pickPhysicalDevice (a :: rest) = .ok a := by
  unfold pickPhysicalDevice
  rw [ha]

theorem pickPhysicalDevice_cons_skip (a : PhysicalDevice) (rest : List PhysicalDevice)
    (e : String) (ha : checkPhysicalDevice a = .error e) :
    pickPhysicalDevice (a :: rest) = pickPhysicalDevice rest := by
  conv =>
    lhs
    rw [pickPhysicalDevice]
  rw [ha]

theorem checkPhysicalDevice_not_ok (d : PhysicalDevice) (hd : ¬ SuitableSpec d) :
    ∃ e, checkPhysicalDevice d = .error e := by
  rcases hc : checkPhysicalDevice d with e | u
  · exact ⟨e, rfl⟩
  · cases u
    exact absurd ((checkPhysicalDevice_ok_iff d).1 hc) hd

/-- Claim C3 — `pick_physical_device` selects an adapter if and only if it
is the first adapter in enumeration order satisfying the suitability
predicate (≥1 graphics-capable queue family, ≥1 present-capable queue
family, all required device extensions, non-empty format and present-mode
lists); adapters failing any check are skipped without aborting the scan,
and the error is returned exactly when no enumerated adapter is suitable. -/
theorem pick_physical_device_first_suitable (ds : List PhysicalDevice)
    (d : PhysicalDevice) :
    (pickPhysicalDevice ds = .ok d ↔
        SuitableSpec d ∧ ∃ pre post, ds = pre ++ d :: post ∧ ∀ x ∈ pre, ¬ SuitableSpec x)
    ∧ (pickPhysicalDevice ds = .error "Failed to find suitable physical device." ↔
        ∀ x ∈ ds, ¬ SuitableSpec x) := by
  induction ds with
  | nil =>
    constructor
    · simp only [pickPhysicalDevice]
      constructor
      · intro h
        simp at h
      · rintro ⟨-, pre, post, hsplit, -⟩
        exact absurd hsplit (by simp)
    · simp [pickPhysicalDevice]
  | cons a rest ih =>
    by_cases ha : SuitableSpec a
    · have hok := pickPhysicalDevice_cons_ok a rest ((checkPhysicalDevice_ok_iff a).2 ha)
      constructor
      · rw [hok]
        constructor
        · intro h
          have had : a = d := by
            simpa using h
          subst had
          exact ⟨ha, [], rest, rfl, by simp⟩
        · rintro ⟨hd, pre, post, hsplit, hpre⟩
          rcases pre with _ | ⟨b, pre2⟩
          · simp at hsplit
            simp [hsplit.1]
          · simp only [List.cons_append, List.cons.injEq] at hsplit
            exact absurd (hsplit.1 ▸ ha) (hpre b (by simp))
      · rw [hok]
        constructor
        · intro h
          simp at h
        · intro hall
          exact absurd ha (hall a (by simp))
    · obtain ⟨e, he⟩ := checkPhysicalDevice_not_ok a ha
      have hskip := pickPhysicalDevice_cons_skip a rest e he
      constructor
      · rw [hskip, ih.1]
        constructor
        · rintro ⟨hd, pre, post, hsplit, hpre⟩
          refine ⟨hd, a :: pre, post, by simp [hsplit], ?_⟩
          intro x hx
          rcases List.mem_cons.1 hx with hx | hx
          · exact hx ▸ ha
          · exact hpre x hx
        · rintro ⟨hd, pre, post, hsplit, hpre⟩
          rcases pre with _ | ⟨b, pre2⟩
          · simp only [List.nil_append, List.cons.injEq] at hsplit
            exact absurd (hsplit.1 ▸ hd) ha
          · simp only [List.cons_append, List.cons.injEq] at hsplit
            exact ⟨hd, pre2, post, hsplit.2, fun x hx => hpre x (by simp [hx])⟩
      · rw [hskip, ih.2]
        constructor
        · intro hall
          intro x hx
          rcases List.mem_cons.1 hx with hx | hx
          · exact hx ▸ ha
          · exact hall x hx
        · intro hall x hx
          exact hall x (by simp [hx])

/-- A concrete unsuitable adapter (no graphics queue family). -/
def adapterNoGraphics : PhysicalDevice where
  queueFamilies := [⟨false, true⟩]
  extensions := ["VK_KHR_swapchain"]
  formats := [1]
  presentModes := [1]

/-- A concrete suitable adapter. -/
def adapterGood : PhysicalDevice where
  queueFamilies := [⟨true, false⟩, ⟨false, true⟩]
  extensions := ["VK_KHR_swapchain", "VK_KHR_other"]
  formats := [1, 2]
  presentModes := [1]

/-- Witness for C3: scanning an unsuitable adapter followed by a suitable
one selects the suitable one — the unsuitable adapter is skipped, not
fatal. -/
theorem pick_physical_device_first_suitable_witness :
    pickPhysicalDevice [adapterNoGraphics, adapterGood] = .ok adapterGood :=
  (pick_physical_device_first_suitable [adapterNoGraphics, adapterGood] adapterGood).1.2
    ⟨by simp [SuitableSpec, adapterGood, DEVICE_EXTENSIONS],
     [adapterNoGraphics], [], rfl, by
      intro x hx
      simp only [List.mem_cons, List.not_mem_nil, or_false] at hx
      subst hx
      rintro ⟨⟨qf, hqf, hqg⟩, -⟩
      simp only [adapterNoGraphics, List.mem_cons, List.not_mem_nil, or_false] at hqf
      subst hqf
      simp at hqg⟩

end Anima
